import Mathlib

/-!
Verification of the ROI backend (`src/Backend/function_app.py`).

The three HTTP handlers (`calculate_roi`, `get_roi_data`, `detect_anomalies`)
are shallowly embedded as pure Lean functions.  External effects are passed in
explicitly:

* the request body arrives as `Except String RoiInput` — `Except.error e`
  models `req.get_json()` raising with message `e`;
* the blob-store read arrives as `ReadResult` — `ReadResult.err e` models the
  download/parse raising with message `e`;
* the anomaly-detector HTTP call arrives as a `ClientResponse`;
* the wall clock arrives as the `timestamp` string.

Python numbers are modelled as exact rationals (`ℚ`); Python's
`ZeroDivisionError` is modelled by `pydiv` returning `Except.error`.
`calculate_roi` returns, besides the HTTP response, the content uploaded to
the blob (`none` when `upload_blob` is never reached).
-/

namespace RoiApp

/-- One persisted ROI record (the `new_entry` dict, lines 87–95). -/
structure RoiRecord where
  project_budget : ℚ
  net_benefit : ℚ
  roi : ℚ
  expected_success : ℚ
  industry_type : String
  project_duration : ℚ
  timestamp : String
  deriving DecidableEq, Repr

/-- Result of downloading and JSON-parsing the history blob.  `err` models any
exception (missing blob, malformed JSON, network error). -/
inductive ReadResult where
  | ok (history : List RoiRecord)
  | err (msg : String)
  deriving DecidableEq, Repr

/-- The eleven fields extracted from the request body (lines 48–59).  Each is
`Option`: `none` models an absent key or an explicit JSON `null`, exactly what
`req_body.get(...)` returns as Python `None`. -/
structure RoiInput where
  project_budget : Option ℚ
  employee_impact : Option ℚ
  project_duration : Option ℚ
  average_salary : Option ℚ
  risk_level : Option ℚ
  industry_type : Option String
  previous_success : Option ℚ
  leadership_alignment : Option ℚ
  employee_readiness : Option ℚ
  communication_plan : Option ℚ
  training_budget : Option ℚ
  deriving DecidableEq, Repr

/-- The same eleven fields once all are known to be present. -/
structure RoiValues where
  project_budget : ℚ
  employee_impact : ℚ
  project_duration : ℚ
  average_salary : ℚ
  risk_level : ℚ
  industry_type : String
  previous_success : ℚ
  leadership_alignment : ℚ
  employee_readiness : ℚ
  communication_plan : ℚ
  training_budget : ℚ
  deriving DecidableEq, Repr

/-- The validation of lines 62–66: `None in (project_budget, ..., training_budget)`
over the eleven extracted fields. -/
def RoiInput.hasMissing (b : RoiInput) : Bool :=
  b.project_budget.isNone || b.employee_impact.isNone || b.project_duration.isNone ||
  b.average_salary.isNone || b.risk_level.isNone || b.industry_type.isNone ||
  b.previous_success.isNone || b.leadership_alignment.isNone ||
  b.employee_readiness.isNone || b.communication_plan.isNone || b.training_budget.isNone

/-- Extraction after validation: succeeds exactly when none of the eleven
fields is `None`; the `getD` defaults are unreachable then, so each field is
the value the Python locals hold after lines 48–59. -/
def RoiInput.extract (b : RoiInput) : Option RoiValues :=
  if b.hasMissing then none
  else some
    ⟨b.project_budget.getD 0, b.employee_impact.getD 0, b.project_duration.getD 0,
     b.average_salary.getD 0, b.risk_level.getD 0, b.industry_type.getD "",
     b.previous_success.getD 0, b.leadership_alignment.getD 0,
     b.employee_readiness.getD 0, b.communication_plan.getD 0, b.training_budget.getD 0⟩

/-- Wrap concrete values back into a request body with every field present. -/
def toInput (v : RoiValues) : RoiInput :=
  ⟨some v.project_budget, some v.employee_impact, some v.project_duration,
   some v.average_salary, some v.risk_level, some v.industry_type,
   some v.previous_success, some v.leadership_alignment, some v.employee_readiness,
   some v.communication_plan, some v.training_budget⟩

/-- Python division: raises `ZeroDivisionError` on a zero denominator. -/
def pydiv (a b : ℚ) : Except String ℚ :=
  if b = 0 then .error "division by zero" else .ok (a / b)

/-- Line 70: `(leadership + employee_readiness + comm_plan) / 15`. -/
def readiness_score (v : RoiValues) : ℚ :=
  (v.leadership_alignment + v.employee_readiness + v.communication_plan) / 15

/-- Line 71: `prev_success * readiness_score`. -/
def expected_success (v : RoiValues) : ℚ :=
  v.previous_success * readiness_score v

/-- Line 74: `employee_impact * avg_salary * project_duration`. -/
def productivity_gain (v : RoiValues) : ℚ :=
  v.employee_impact * v.average_salary * v.project_duration

/-- Line 75: `(productivity_gain * (expected_success / 100)) - project_budget`. -/
def net_benefit (v : RoiValues) : ℚ :=
  productivity_gain v * (expected_success v / 100) - v.project_budget

/-- Line 76: `(net_benefit / project_budget) * 100`; the division is unguarded,
so a zero budget raises `ZeroDivisionError`. -/
def roiOf (v : RoiValues) : Except String ℚ :=
  (pydiv (net_benefit v) v.project_budget).map (· * 100)

/-- Bodies of the JSON responses the three handlers can produce. -/
inductive RespBody where
  /-- `{"error": msg}` -/
  | error (msg : String)
  /-- the success payload of `calculate_roi` (lines 100–106) -/
  | roiResult (roi net_benefit expected_success : ℚ)
      (industry_type : String) (project_duration : ℚ)
  /-- `{"roi_data": records}` -/
  | roiData (records : List RoiRecord)
  /-- `{"anomalies": records}` with each record carrying `isAnomaly` -/
  | anomalies (records : List (RoiRecord × Bool))
  deriving DecidableEq, Repr

/-- An HTTP response: status code and JSON body (headers are constant CORS
headers and are not modelled). -/
structure HttpResponse where
  status : Nat
  body : RespBody
  deriving DecidableEq, Repr

/-- The record appended by `calculate_roi` (lines 87–95). -/
def mkRecord (v : RoiValues) (t : String) : RoiRecord :=
  { project_budget := v.project_budget
    net_benefit := net_benefit v
    roi := (net_benefit v / v.project_budget) * 100
    expected_success := expected_success v
    industry_type := v.industry_type
    project_duration := v.project_duration
    timestamp := t }

/-- The `calculate_roi` handler (lines 39–115) on a non-OPTIONS request.
Returns the HTTP response and, when `upload_blob` is reached, the uploaded
history (`some`); `none` means no write was attempted.  The outer
`try/except` of lines 44/108–115 turns any raised exception into a 500
response carrying `str(e)`. -/
def calculate_roi (parse : Except String RoiInput) (store : ReadResult)
    (t : String) : HttpResponse × Option (List RoiRecord) :=
  match parse with
  | .error e => (⟨500, .error e⟩, none)
  | .ok b =>
    match b.extract with
    | none => (⟨400, .error "Missing input fields"⟩, none)
    | some v =>
      match roiOf v with
      | .error e => (⟨500, .error e⟩, none)
      | .ok roi =>
        let existing_data := match store with
          | .ok h => h
          | .err _ => []
        let new_entry := mkRecord v t
        let updated := existing_data ++ [new_entry]
        (⟨200, .roiResult roi (net_benefit v) (expected_success v)
            v.industry_type v.project_duration⟩,
         some updated)

/-- The `get_roi_data` handler (lines 123–140) on a non-OPTIONS request: the
read is inside the outer `try`, so a read failure becomes a 500 response. -/
def get_roi_data (store : ReadResult) : HttpResponse :=
  match store with
  | .ok data => ⟨200, .roiData data⟩
  | .err e => ⟨500, .error e⟩

/-- The anomaly-detector HTTP response: its status code and, when the parsed
JSON body has an `isAnomaly` key, that boolean list (`none` models a body
without the key, so `result.get("isAnomaly", [])` yields `[]`). -/
structure ClientResponse where
  status_code : Nat
  isAnomaly : Option (List Bool)
  deriving DecidableEq, Repr

/-- The list comprehension of lines 183–187: enumerate the flag list and, for
each true flag at index `i`, evaluate `data[i]` — which raises `IndexError`
when `i` is out of range — and merge in `isAnomaly: True`. -/
def buildAnomalies (data : List RoiRecord) :
    List Bool → Nat → Except String (List (RoiRecord × Bool))
  | [], _ => .ok []
  | f :: fs, i =>
    if f then
      match data[i]? with
      | none => .error "list index out of range"
      | some r => (buildAnomalies data fs (i + 1)).map ((r, true) :: ·)
    else buildAnomalies data fs (i + 1)

/-- The `detect_anomalies` handler (lines 148–194) on a non-OPTIONS request:
read failure is a 500; a non-200 client status is forwarded with a generic
message; otherwise the flagged records are assembled and returned. -/
def detect_anomalies (store : ReadResult) (client : ClientResponse) :
    HttpResponse :=
  match store with
  | .err e => ⟨500, .error e⟩
  | .ok data =>
    if client.status_code ≠ 200 then
      ⟨client.status_code, .error "Anomaly Detector API failed"⟩
    else
      match buildAnomalies data (client.isAnomaly.getD []) 0 with
      | .error e => ⟨500, .error e⟩
      | .ok anomalies => ⟨200, .anomalies anomalies⟩

/-- Sequential execution of `calculate_roi` requests against a threaded store:
after a successful upload the next request reads the uploaded history. -/
def runCalcs : List (RoiInput × String) → ReadResult →
    List HttpResponse × ReadResult
  | [], st => ([], st)
  | (b, t) :: rest, st =>
    let step := calculate_roi (.ok b) st t
    let st' := match step.2 with
      | some d => .ok d
      | none => st
    let tail := runCalcs rest st'
    (step.1 :: tail.1, tail.2)

/-! ## Helper lemmas and concrete sample data -/

theorem extract_toInput (v : RoiValues) : (toInput v).extract = some v := by
  simp [toInput, RoiInput.extract, RoiInput.hasMissing]

/-- The worked example of spec §8: eight fields fixed by the example, the three
remaining required fields (`risk_level`, `industry_type`, `training_budget`)
chosen arbitrarily. -/
def exValues : RoiValues :=
  { project_budget := 100000
    employee_impact := 10
    project_duration := 2
    average_salary := 50000
    risk_level := 3
    industry_type := "Tech"
    previous_success := 80
    leadership_alignment := 4
    employee_readiness := 4
    communication_plan := 4
    training_budget := 5000 }

/-- A small concrete persisted record for witnesses. -/
def sampleRec (n : ℚ) (t : String) : RoiRecord :=
  ⟨n, n, n, n, "Tech", n, t⟩

/-! ## Claims -/

/-- Claim C1: for every `calculate_roi` request in which all eleven fields are
present and `project_budget` is nonzero, the handler returns status 200 with
exactly the spec'd values: `expected_success = previous_success *
((leadership + readiness + communication)/15)`, `net_benefit =
employee_impact * average_salary * project_duration * (expected_success/100)
- project_budget`, and `roi = (net_benefit / project_budget) * 100`. -/
theorem C1_roi_formula (b : RoiInput) (v : RoiValues) (st : ReadResult)
    (t : String) (hb : b.extract = some v) (hpb : v.project_budget ≠ 0) :
    (calculate_roi (.ok b) st t).1 =
      ⟨200, .roiResult
        (((v.employee_impact * v.average_salary * v.project_duration *
            (v.previous_success *
              ((v.leadership_alignment + v.employee_readiness +
                v.communication_plan) / 15) / 100)) - v.project_budget) /
          v.project_budget * 100)
        ((v.employee_impact * v.average_salary * v.project_duration *
            (v.previous_success *
              ((v.leadership_alignment + v.employee_readiness +
                v.communication_plan) / 15) / 100)) - v.project_budget)
        (v.previous_success *
          ((v.leadership_alignment + v.employee_readiness +
            v.communication_plan) / 15))
        v.industry_type v.project_duration⟩ := by
  simp [calculate_roi, hb, roiOf, pydiv, hpb, net_benefit, productivity_gain,
    expected_success, readiness_score, Except.map]

/-- Claim C1, witness: the spec's example inputs yield
`expected_success = 64`, `net_benefit = 540000`, `roi = 540`. -/
theorem C1_roi_formula_witness :
    (toInput exValues).extract = some exValues ∧
    exValues.project_budget ≠ 0 ∧
    (calculate_roi (.ok (toInput exValues)) (.err "BlobNotFound") "t").1 =
      ⟨200, .roiResult 540 540000 64 "Tech" 2⟩ :=
  ⟨extract_toInput exValues, by decide,
   by rw [C1_roi_formula (toInput exValues) exValues (.err "BlobNotFound") "t"
        (extract_toInput exValues) (by decide)]
      norm_num [exValues]⟩

/-- Claim C3: on the pure-read paths, a failed history read (missing blob,
malformed JSON, any error) makes both `get_roi_data` and `detect_anomalies`
return a 500 response carrying the exception text; neither defaults to an
empty history. -/
theorem C3_read_error_surfaced (e : String) (client : ClientResponse) :
    get_roi_data (.err e) = ⟨500, .error e⟩ ∧
    detect_anomalies (.err e) client = ⟨500, .error e⟩ :=
  ⟨rfl, rfl⟩

/-- Claim C8: when the history read succeeds but the anomaly client responds
with a status other than 200, the handler forwards the client's status code
with a generic error message and produces no anomalies list. -/
theorem C8_client_error_forwarded (data : List RoiRecord)
    (client : ClientResponse) (h : client.status_code ≠ 200) :
    detect_anomalies (.ok data) client =
      ⟨client.status_code, .error "Anomaly Detector API failed"⟩ := by
  simp [detect_anomalies, h]

/-- Claim C8, witness: a 403 from the client is forwarded as a 403. -/
theorem C8_client_error_forwarded_witness :
    (ClientResponse.mk 403 none).status_code ≠ 200 ∧
    detect_anomalies (.ok [sampleRec 1 "t1"]) (.mk 403 none) =
      ⟨403, .error "Anomaly Detector API failed"⟩ :=
  ⟨by decide,
   C8_client_error_forwarded [sampleRec 1 "t1"] (.mk 403 none) (by decide)⟩

/-- Claim C9: a request body that is absent or unparseable as JSON makes
`calculate_roi` return a 500 response carrying the parse exception's text —
not the 400 missing-fields error — and no blob write is attempted. -/
theorem C9_parse_error (e : String) (st : ReadResult) (t : String) :
    calculate_roi (.error e) st t = (⟨500, .error e⟩, none) :=
  rfl

/-- Claim C10: when the anomaly client responds 200 but its JSON body lacks
the `isAnomaly` key, the handler returns 200 with an empty anomalies list. -/
theorem C10_missing_key (data : List RoiRecord) (client : ClientResponse)
    (h200 : client.status_code = 200) (hkey : client.isAnomaly = none) :
    detect_anomalies (.ok data) client = ⟨200, .anomalies []⟩ := by
  simp [detect_anomalies, h200, hkey, buildAnomalies]

/-- Claim C10, witness: a keyless 200 body over a one-record history yields
an empty anomalies list. -/
theorem C10_missing_key_witness :
    (ClientResponse.mk 200 none).status_code = 200 ∧
    (ClientResponse.mk 200 none).isAnomaly = none ∧
    detect_anomalies (.ok [sampleRec 1 "t1"]) (.mk 200 none) =
      ⟨200, .anomalies []⟩ :=
  ⟨rfl, rfl, C10_missing_key [sampleRec 1 "t1"] (.mk 200 none) rfl rfl⟩

/-- The spec example input with a zero `project_budget`: it carries all eleven
fields, so it passes validation, yet line 76 raises `ZeroDivisionError` before
the store is ever touched. -/
def zbValues : RoiValues :=
  { exValues with project_budget := 0 }

/-- Claim C2, counterexample: a validation-passing request (all eleven fields
present, `project_budget = 0`) with a failing history read makes the handler
fail with a 500 and upload nothing — refuting "the handler does not fail" and
"the store contains exactly one record" as universally stated. -/
theorem C2_counterexample :
    (toInput zbValues).extract.isSome = true ∧
    (calculate_roi (.ok (toInput zbValues)) (.err "BlobNotFound") "t").1.status
      = 500 ∧
    (calculate_roi (.ok (toInput zbValues)) (.err "BlobNotFound") "t").2
      = none := by
  refine ⟨?_, ?_, ?_⟩ <;> decide

/-- Claim C2, amended: for every `calculate_roi` request that passes
validation and whose `project_budget` is nonzero, a failing history read does
not fail the handler: the history is treated as empty, and the uploaded store
holds exactly one record, the newly computed one. -/
theorem C2_read_failure_recovered (b : RoiInput) (v : RoiValues)
    (e t : String) (hb : b.extract = some v) (hpb : v.project_budget ≠ 0) :
    (calculate_roi (.ok b) (.err e) t).1.status = 200 ∧
    (calculate_roi (.ok b) (.err e) t).2 = some [mkRecord v t] := by
  simp [calculate_roi, hb, roiOf, pydiv, hpb, Except.map]

/-- Claim C2, witness: the spec example over a missing blob stores exactly
its own record. -/
theorem C2_read_failure_recovered_witness :
    (toInput exValues).extract = some exValues ∧
    exValues.project_budget ≠ 0 ∧
    ((calculate_roi (.ok (toInput exValues)) (.err "BlobNotFound") "t").1.status
        = 200 ∧
     (calculate_roi (.ok (toInput exValues)) (.err "BlobNotFound") "t").2
        = some [mkRecord exValues "t"]) :=
  ⟨extract_toInput exValues, by decide,
   C2_read_failure_recovered (toInput exValues) exValues "BlobNotFound" "t"
     (extract_toInput exValues) (by decide)⟩

/-- Claim C5: omitting any one of the eleven required fields makes
`calculate_roi` answer 400 "Missing input fields" with no store write, and
the response is the same whatever the store holds (no read is consulted);
conversely any request with all eleven fields present — zero and
empty-string values included — never gets the 400 validation error. -/
theorem C5_missing_field (b : RoiInput) (st : ReadResult) (t : String) :
    ((b.project_budget = none ∨ b.employee_impact = none ∨
      b.project_duration = none ∨ b.average_salary = none ∨
      b.risk_level = none ∨ b.industry_type = none ∨
      b.previous_success = none ∨ b.leadership_alignment = none ∨
      b.employee_readiness = none ∨ b.communication_plan = none ∨
      b.training_budget = none) →
      calculate_roi (.ok b) st t =
        (⟨400, .error "Missing input fields"⟩, none)) ∧
    (b.extract.isSome → (calculate_roi (.ok b) st t).1.status ≠ 400) := by
  constructor
  · intro h
    have hm : b.hasMissing = true := by
      rcases h with h | h | h | h | h | h | h | h | h | h | h <;>
        simp [RoiInput.hasMissing, h]
    simp [calculate_roi, RoiInput.extract, hm]
  · intro h
    obtain ⟨v, hv⟩ := Option.isSome_iff_exists.mp h
    rcases hroi : roiOf v with e | r <;>
      simp [calculate_roi, hv, hroi]

/-- A request body whose only absent field is `risk_level`. -/
def missingRisk : RoiInput :=
  ⟨some 1, some 1, some 1, some 1, none, some "Tech", some 1, some 1,
   some 1, some 1, some 1⟩

/-- A request body with all eleven fields present, a zero `project_budget`
and an empty-string `industry_type`. -/
def zeroInput : RoiInput :=
  toInput { zbValues with industry_type := "" }

/-- Claim C5, witness: omitting only `risk_level` yields the 400 error with no
write, and the all-present zero/empty-string request is not rejected. -/
theorem C5_missing_field_witness :
    (missingRisk.project_budget = none ∨ missingRisk.employee_impact = none ∨
     missingRisk.project_duration = none ∨ missingRisk.average_salary = none ∨
     missingRisk.risk_level = none ∨ missingRisk.industry_type = none ∨
     missingRisk.previous_success = none ∨
     missingRisk.leadership_alignment = none ∨
     missingRisk.employee_readiness = none ∨
     missingRisk.communication_plan = none ∨
     missingRisk.training_budget = none) ∧
    calculate_roi (.ok missingRisk) (.err "BlobNotFound") "t" =
      (⟨400, .error "Missing input fields"⟩, none) ∧
    zeroInput.extract.isSome = true ∧
    (calculate_roi (.ok zeroInput) (.err "BlobNotFound") "t").1.status ≠ 400 :=
  ⟨by decide,
   (C5_missing_field missingRisk (.err "BlobNotFound") "t").1 (by decide),
   by decide,
   (C5_missing_field zeroInput (.err "BlobNotFound") "t").2 (by decide)⟩

/-- Claim C7: with all eleven fields present and `project_budget = 0`, the
unguarded division of line 76 raises `ZeroDivisionError`, which the handler
boundary converts into a 500 response carrying the exception text; nothing
is written to the store. -/
theorem C7_division_unguarded (b : RoiInput) (v : RoiValues)
    (st : ReadResult) (t : String) (hb : b.extract = some v)
    (hpb : v.project_budget = 0) :
    calculate_roi (.ok b) st t = (⟨500, .error "division by zero"⟩, none) := by
  simp [calculate_roi, hb, roiOf, pydiv, hpb, Except.map]

/-- Claim C7, witness: the zero-budget example is answered with the
division-by-zero server error. -/
theorem C7_division_unguarded_witness :
    (toInput zbValues).extract = some zbValues ∧
    zbValues.project_budget = 0 ∧
    calculate_roi (.ok (toInput zbValues)) (.err "BlobNotFound") "t" =
      (⟨500, .error "division by zero"⟩, none) :=
  ⟨extract_toInput zbValues, by decide,
   C7_division_unguarded (toInput zbValues) zbValues (.err "BlobNotFound") "t"
     (extract_toInput zbValues) (by decide)⟩

theorem buildAnomalies_eq (data : List RoiRecord) (flags : List Bool) (i : Nat)
    (h : i + flags.length ≤ data.length) :
    buildAnomalies data flags i =
      .ok (((data.drop i).zip flags).filterMap
        fun p => if p.2 then some (p.1, true) else none) := by
  induction flags generalizing i with
  | nil => simp [buildAnomalies]
  | cons f fs ih =>
    have hi : i < data.length := by simp at h; omega
    have hdrop : data.drop i = data[i] :: data.drop (i + 1) :=
      List.drop_eq_getElem_cons hi
    have hget : data[i]? = some data[i] := List.getElem?_eq_getElem hi
    have hrest := ih (i + 1) (by simp at h ⊢; omega)
    cases f with
    | false =>
      rw [hdrop]
      simp only [buildAnomalies, List.zip_cons_cons, List.filterMap_cons]
      simp [hrest]
    | true =>
      rw [hdrop]
      simp only [buildAnomalies, hget, List.zip_cons_cons, List.filterMap_cons]
      simp [hrest, Except.map]

/-- Claim C4: on a 200 client response whose flag list is no longer than the
history, the anomalies list is exactly the history records at the positions
flagged true, each paired with `isAnomaly = true`, in history order;
positions at or beyond the flag list's length are excluded. -/
theorem C4_anomaly_assembly (data : List RoiRecord) (flags : List Bool)
    (client : ClientResponse) (h200 : client.status_code = 200)
    (hkey : client.isAnomaly = some flags) (hlen : flags.length ≤ data.length) :
    detect_anomalies (.ok data) client =
      ⟨200, .anomalies ((data.zip flags).filterMap
        fun p => if p.2 then some (p.1, true) else none)⟩ := by
  have h := buildAnomalies_eq data flags 0 (by simpa using hlen)
  simp [detect_anomalies, h200, hkey, h]

/-- Claim C4, witness: over a four-record history with flags at positions 1
and 3, exactly records 1 and 3 come back, flagged, in order. -/
theorem C4_anomaly_assembly_witness :
    (ClientResponse.mk 200 (some [false, true, false, true])).status_code
        = 200 ∧
    (ClientResponse.mk 200 (some [false, true, false, true])).isAnomaly
        = some [false, true, false, true] ∧
    ([false, true, false, true] : List Bool).length ≤
      ([sampleRec 1 "t1", sampleRec 2 "t2", sampleRec 3 "t3",
        sampleRec 4 "t4"]).length ∧
    detect_anomalies
        (.ok [sampleRec 1 "t1", sampleRec 2 "t2", sampleRec 3 "t3",
          sampleRec 4 "t4"])
        (.mk 200 (some [false, true, false, true])) =
      ⟨200, .anomalies [(sampleRec 2 "t2", true), (sampleRec 4 "t4", true)]⟩ :=
  ⟨rfl, rfl, by decide,
   by rw [C4_anomaly_assembly
        [sampleRec 1 "t1", sampleRec 2 "t2", sampleRec 3 "t3", sampleRec 4 "t4"]
        [false, true, false, true] (.mk 200 (some [false, true, false, true]))
        rfl rfl (by decide)]
      decide⟩

theorem calculate_roi_ok (v : RoiValues) (h0 : List RoiRecord) (t : String)
    (hpb : v.project_budget ≠ 0) :
    calculate_roi (.ok (toInput v)) (.ok h0) t =
      (⟨200, .roiResult (net_benefit v / v.project_budget * 100)
          (net_benefit v) (expected_success v) v.industry_type
          v.project_duration⟩,
       some (h0 ++ [mkRecord v t])) := by
  simp [calculate_roi, extract_toInput, roiOf, pydiv, hpb, Except.map]

theorem runCalcs_ok (reqs : List (RoiValues × String)) (h0 : List RoiRecord)
    (hv : ∀ p ∈ reqs, p.1.project_budget ≠ 0) :
    runCalcs (reqs.map fun p => (toInput p.1, p.2)) (.ok h0) =
      (reqs.map fun p =>
        ⟨200, .roiResult (net_benefit p.1 / p.1.project_budget * 100)
          (net_benefit p.1) (expected_success p.1) p.1.industry_type
          p.1.project_duration⟩,
       .ok (h0 ++ reqs.map fun p => mkRecord p.1 p.2)) := by
  induction reqs generalizing h0 with
  | nil => simp [runCalcs]
  | cons q rest ih =>
    have hq : q.1.project_budget ≠ 0 := hv q (by simp)
    have hrest : ∀ p ∈ rest, p.1.project_budget ≠ 0 := fun p hp =>
      hv p (by simp [hp])
    simp [runCalcs, calculate_roi_ok q.1 h0 q.2 hq,
      ih (h0 ++ [mkRecord q.1 q.2]) hrest]

theorem calculate_roi_err_eq_nil (p : Except String RoiInput) (e t : String) :
    calculate_roi p (.err e) t = calculate_roi p (.ok []) t := by
  rcases p with e' | b
  · rfl
  · rcases hb : b.extract with _ | v
    · simp [calculate_roi, hb]
    · rcases hr : roiOf v with e'' | r <;> simp [calculate_roi, hb, hr]

theorem runCalcs_err (reqs : List (RoiValues × String)) (e0 : String)
    (hv : ∀ p ∈ reqs, p.1.project_budget ≠ 0) (hne : reqs ≠ []) :
    runCalcs (reqs.map fun p => (toInput p.1, p.2)) (.err e0) =
      runCalcs (reqs.map fun p => (toInput p.1, p.2)) (.ok []) := by
  cases reqs with
  | nil => exact absurd rfl hne
  | cons q rest =>
    have hq : q.1.project_budget ≠ 0 := hv q (by simp)
    simp only [List.map_cons, runCalcs,
      calculate_roi_err_eq_nil (.ok (toInput q.1)) e0 q.2,
      calculate_roi_ok q.1 [] q.2 hq]

/-- Claim C6: running N valid requests sequentially from the empty store and
then reading gives exactly N records in append order; each stored record's
`roi`, `net_benefit`, `expected_success`, `industry_type`, `project_duration`
are the values the corresponding `calculate_roi` response carried, and the
record additionally carries that call's timestamp, which the response omits.
The last conjunct: for N ≥ 1 a missing/unreadable initial store behaves
identically to the empty history, so the result is the same under either
reading of "empty store". -/
theorem C6_append_then_read (reqs : List (RoiValues × String))
    (hv : ∀ p ∈ reqs, p.1.project_budget ≠ 0) :
    (∀ e0 : String, reqs ≠ [] →
      runCalcs (reqs.map fun p => (toInput p.1, p.2)) (.err e0) =
        runCalcs (reqs.map fun p => (toInput p.1, p.2)) (.ok [])) ∧
    ∃ hist : List RoiRecord,
      (runCalcs (reqs.map fun p => (toInput p.1, p.2)) (.ok [])).2
        = .ok hist ∧
      hist.length = reqs.length ∧
      get_roi_data (.ok hist) = ⟨200, .roiData hist⟩ ∧
      ∀ (i : ℕ) (r : RoiRecord), hist[i]? = some r →
        (runCalcs (reqs.map fun p => (toInput p.1, p.2)) (.ok [])).1[i]? =
          some ⟨200, .roiResult r.roi r.net_benefit r.expected_success
            r.industry_type r.project_duration⟩ ∧
        ∃ p : RoiValues × String, reqs[i]? = some p ∧ r.timestamp = p.2 := by
  refine ⟨fun e0 hne => runCalcs_err reqs e0 hv hne,
    reqs.map fun p => mkRecord p.1 p.2, ?_, by simp, rfl, ?_⟩
  · simp [runCalcs_ok reqs [] hv]
  · intro i r hr
    rw [runCalcs_ok reqs [] hv]
    simp only [List.getElem?_map] at hr ⊢
    cases hq : reqs[i]? with
    | none => simp [hq] at hr
    | some p =>
      simp only [hq, Option.map_some'] at hr ⊢
      obtain rfl : mkRecord p.1 p.2 = r := by exact Option.some.inj hr
      exact ⟨rfl, p, rfl, rfl⟩

/-- A two-request run for the Claim C6 witness. -/
def exReqs : List (RoiValues × String) :=
  [(exValues, "t1"), ({ exValues with project_budget := 50000 }, "t2")]

/-- Claim C6, witness: two valid requests from the empty store. -/
theorem C6_append_then_read_witness :
    (∀ p ∈ exReqs, p.1.project_budget ≠ 0) ∧
    (∀ e0 : String, exReqs ≠ [] →
      runCalcs (exReqs.map fun p => (toInput p.1, p.2)) (.err e0) =
        runCalcs (exReqs.map fun p => (toInput p.1, p.2)) (.ok [])) ∧
    ∃ hist : List RoiRecord,
      (runCalcs (exReqs.map fun p => (toInput p.1, p.2)) (.ok [])).2
        = .ok hist ∧
      hist.length = exReqs.length ∧
      get_roi_data (.ok hist) = ⟨200, .roiData hist⟩ ∧
      ∀ (i : ℕ) (r : RoiRecord), hist[i]? = some r →
        (runCalcs (exReqs.map fun p => (toInput p.1, p.2)) (.ok [])).1[i]? =
          some ⟨200, .roiResult r.roi r.net_benefit r.expected_success
            r.industry_type r.project_duration⟩ ∧
        ∃ p : RoiValues × String, exReqs[i]? = some p ∧ r.timestamp = p.2 :=
  ⟨by decide, C6_append_then_read exReqs (by decide)⟩

end RoiApp
